import Mathlib

/-!
Verification of the leave-balance / automatic-deduction logic of the HR
attendance application (client components under `src/`, server routes
modelled from the specification where the route code is not part of the
source tree).

The development embeds:
* the data model (employees, attendance records, leave requests, holidays,
  leave balances) as plain Lean structures;
* the Automatic Deduction Processor, the server-side balance
  create/update operations and the usage-category labelling, modelled
  from the specification (the Express route handlers are not under
  `src/`; only their client callers are);
* the client-side computations that are literally in `src/`: the summary
  aggregation (`totalEntitlement`, `totalUsed`, `averageUtilization`),
  the create-balance form schema, the unified add/deduct submission
  logic, the edit-dialog guard, and the statistics of the automatic
  deduction screen (`absentEmployees`, `eligibleForDeduction`,
  auto-deducted estimate).
-/

/-- Employee status enum (`active` | `inactive`), from the schema. -/
inductive EmpStatus
  | active
  | inactive
deriving DecidableEq, Repr

/-- An employee row; only the fields the leave logic reads. -/
structure Employee where
  id : String
  fullName : String
  status : EmpStatus
deriving DecidableEq, Repr

/-- An attendance record keyed by (employee, date). -/
structure AttendanceRecord where
  employeeId : String
  date : Nat
deriving DecidableEq, Repr

/-- Leave-request status enum (`pending` | `approved` | `rejected`). -/
inductive LeaveStatus
  | pending
  | approved
  | rejected
deriving DecidableEq, Repr

/-- A leave request: employee, inclusive date range, status. -/
structure LeaveRequest where
  employeeId : String
  startDate : Nat
  endDate : Nat
  status : LeaveStatus
deriving DecidableEq, Repr

/-- A leave-balance row: stored entitlement and used days together with
the derived `remaining_days` and `utilization_percentage` columns. -/
structure LeaveBalance where
  employeeId : String
  year : Nat
  annualEntitlement : Nat
  usedDays : Nat
  remainingDays : Nat
  utilizationPercentage : Rat
deriving DecidableEq, Repr

/-- Rounding to one decimal place, as in `round(x, 1)` / `toFixed(1)`. -/
def round1 (q : Rat) : Rat := (round (q * 10) : Int) / 10

/-- Modelled from the spec: derived remaining days,
`remaining_days = max(0, annual_entitlement - used_days)` (natural
subtraction is exactly the 0-floored difference). -/
def computeRemaining (ent used : Nat) : Nat := ent - used

/-- Modelled from the spec: derived utilization percentage,
`round(used_days / annual_entitlement * 100, 1)` when the entitlement is
positive, else `0`. -/
def computeUtilization (ent used : Nat) : Rat :=
  if 0 < ent then round1 ((used : Rat) / (ent : Rat) * 100) else 0

/-- Default annual entitlement (45 days), from the schema default. -/
def DEFAULT_ENTITLEMENT : Nat := 45

/-- Construct a balance row with its derived columns recomputed; every
write path of the modelled server goes through this constructor. -/
def mkBalance (empId : String) (year ent used : Nat) : LeaveBalance :=
  { employeeId := empId
    year := year
    annualEntitlement := ent
    usedDays := used
    remainingDays := computeRemaining ent used
    utilizationPercentage := computeUtilization ent used }

/-- Modelled from the spec: calendar abstraction.  Dates are absolute day
numbers; the year and the weekend test are derived arithmetically (the
claims never depend on the concrete calendar mapping, only on dates
having a year and a recurring weekend). -/
def yearOf (d : Nat) : Nat := d / 365

/-- Modelled from the spec: two of every seven consecutive days are
weekend days. -/
def isWeekend (d : Nat) : Bool := d % 7 == 5 || d % 7 == 6

/-- The persistent state the leave logic reads and writes. -/
structure SystemState where
  employees : List Employee
  attendance : List AttendanceRecord
  leaveRequests : List LeaveRequest
  holidays : List Nat
  balances : List LeaveBalance
deriving DecidableEq, Repr

/-- The key predicate for a balance row: matches (employee, year). -/
def balKey (empId : String) (year : Nat) (b : LeaveBalance) : Bool :=
  b.employeeId == empId && b.year == year

/-- Look up the balance row for (employee, year). -/
def findBalance (bals : List LeaveBalance) (empId : String) (year : Nat) :
    Option LeaveBalance :=
  bals.find? (balKey empId year)

/-- Modelled from the spec: a missing balance row reads as a
zero-initialized balance with the default entitlement of 45. -/
def balanceOrDefault (bals : List LeaveBalance) (empId : String) (year : Nat) :
    LeaveBalance :=
  (findBalance bals empId year).getD (mkBalance empId year DEFAULT_ENTITLEMENT 0)

/-- Used days of (employee, year) in a balance list, defaulting to 0. -/
def usedOfBals (bals : List LeaveBalance) (empId : String) (year : Nat) : Nat :=
  (balanceOrDefault bals empId year).usedDays

/-- Used days of (employee, year) in a state. -/
def usedOf (st : SystemState) (empId : String) (year : Nat) : Nat :=
  usedOfBals st.balances empId year

/-- Remaining days of (employee, year) in a state, defaulting to 45. -/
def remainingOf (st : SystemState) (empId : String) (year : Nat) : Nat :=
  (balanceOrDefault st.balances empId year).remainingDays

/-- Is the date a recorded holiday? -/
def isHoliday (st : SystemState) (d : Nat) : Bool := st.holidays.contains d

/-- Does the employee have an attendance record for the date? -/
def hasAttendance (st : SystemState) (empId : String) (d : Nat) : Bool :=
  st.attendance.any (fun a => a.employeeId == empId && a.date == d)

/-- Does an approved leave request of the employee cover the date? -/
def hasApprovedLeave (st : SystemState) (empId : String) (d : Nat) : Bool :=
  st.leaveRequests.any (fun r =>
    r.employeeId == empId && r.status == LeaveStatus.approved
      && decide (r.startDate ≤ d) && decide (d ≤ r.endDate))

/-- Modelled from the spec: "Eligible for deduction: active employee, no
attendance record, no approved leave, not a holiday/weekend, remaining
balance > 0" (glossary; algorithm steps 1-5 of the deduction
processor). -/
def isEligible (st : SystemState) (d : Nat) (e : Employee) : Bool :=
  (e.status == EmpStatus.active)
    && !(isHoliday st d || isWeekend d)
    && !(hasAttendance st e.id d)
    && !(hasApprovedLeave st e.id d)
    && decide (0 < remainingOf st e.id (yearOf d))

/-- Bump a balance row by one used day, recomputing derived columns. -/
def bump (b : LeaveBalance) : LeaveBalance :=
  mkBalance b.employeeId b.year b.annualEntitlement (b.usedDays + 1)

/-- Modelled from the spec: deduction step 6 — increment `used_days` by 1
for (employee, year), creating the row with the default entitlement of 45
if it is absent, and recompute remaining/utilization. -/
def applyDeduction (bals : List LeaveBalance) (empId : String) (year : Nat) :
    List LeaveBalance :=
  if (findBalance bals empId year).isSome then
    bals.map (fun b => if balKey empId year b then bump b else b)
  else
    mkBalance empId year DEFAULT_ENTITLEMENT 1 :: bals

/-- Optional employee filter of the deduction endpoint. -/
def matchesFilter (filter : Option String) (e : Employee) : Bool :=
  match filter with
  | none => true
  | some i => e.id == i

/-- Result of the deduction endpoint: the new state plus the response
body `{processedEmployees, deductedCount}`. -/
structure DeductionResult where
  state : SystemState
  processedEmployees : Nat
  deductedCount : Nat
deriving Repr

/-- Modelled from the spec: the Automatic Deduction Processor
(`POST /api/leave-deduction/process`; route code not under `src/`).
Selects active employees (optionally filtered to one), keeps those
eligible for deduction on the date, and increments each one's
current-year `used_days` by one. -/
def processDeduction (st : SystemState) (d : Nat) (filter : Option String) :
    DeductionResult :=
  let targets := st.employees.filter
    (fun e => matchesFilter filter e && e.status == EmpStatus.active)
  let elig := targets.filter (fun e => isEligible st d e)
  let newBals := elig.foldl (fun bs e => applyDeduction bs e.id (yearOf d)) st.balances
  { state := { st with balances := newBals }
    processedEmployees := targets.length
    deductedCount := elig.length }

/-- Modelled from the spec: the create-balance endpoint
(`POST /api/leave-balances`, body `{employeeId, year, annualEntitlement,
usedDays}`; route code not under `src/`).  Upserts the (employee, year)
row with derived columns recomputed, keeping one row per key. -/
def createBalance (st : SystemState) (empId : String) (year ent used : Nat) :
    SystemState :=
  let newBals :=
    if (findBalance st.balances empId year).isSome then
      st.balances.map
        (fun b => if balKey empId year b then mkBalance empId year ent used else b)
    else
      mkBalance empId year ent used :: st.balances
  { st with balances := newBals }

/-- Modelled from the spec: the update endpoint
(`PUT /api/leave-balances/:employeeId/:year`, body `{usedDays}`; route
code not under `src/`).  Sets `used_days` of the (employee, year) row and
recomputes remaining/utilization. -/
def updateUsedDays (st : SystemState) (empId : String) (year used : Nat) :
    SystemState :=
  let newBals := st.balances.map
    (fun b =>
      if balKey empId year b then
        mkBalance b.employeeId b.year b.annualEntitlement used
      else b)
  { st with balances := newBals }

/-- The spec's stored-row invariant: `used_days ≥ 0`,
`remaining_days = max(0, annual_entitlement - used_days)`, and
`utilization_percentage = round(used_days / annual_entitlement * 100, 1)`
when the entitlement is positive, else `0`. -/
def BalanceInv (b : LeaveBalance) : Prop :=
  (0 : Int) ≤ (b.usedDays : Int)
    ∧ (b.remainingDays : Int) = max 0 ((b.annualEntitlement : Int) - (b.usedDays : Int))
    ∧ b.utilizationPercentage =
        (if 0 < b.annualEntitlement then
          round1 ((b.usedDays : Rat) / (b.annualEntitlement : Rat) * 100)
        else 0)

/-- Modelled from the spec: the usage-category labelling of the Leave
Balance Calculator (computed by the `/api/leave-balances/calculate`
route, which is not under `src/`).  Thresholds: `0` → "No Leave Taken",
`(0, 25]` → "Low Usage", `(25, 75]` → "Moderate Usage", `> 75` →
"High Usage". -/
def getUsageCategory (u : Rat) : String :=
  if u = 0 then "No Leave Taken"
  else if u ≤ 25 then "Low Usage"
  else if u ≤ 75 then "Moderate Usage"
  else "High Usage"

/-- A row of the `/api/leave-balances/report` response as the client
summary cards read it (only the numeric fields the reduction uses). -/
structure ReportRow where
  employee_id : String
  annual_entitlement : Nat
  used_days : Nat
  remaining_days : Nat
deriving DecidableEq, Repr

/-- Client summary statistic: `reportData.reduce((sum, emp) =>
sum + (emp.annual_entitlement || 0), 0)`. -/
def totalEntitlement (rows : List ReportRow) : Nat :=
  rows.foldl (fun s r => s + r.annual_entitlement) 0

/-- Client summary statistic: `reportData.reduce((sum, emp) =>
sum + (emp.used_days || 0), 0)`. -/
def totalUsed (rows : List ReportRow) : Nat :=
  rows.foldl (fun s r => s + r.used_days) 0

/-- Client summary statistic: `totalEmployees > 0 ?
(totalUsed / totalEntitlement * 100).toFixed(1) : 0`.  `toFixed(1)` is
modelled by `round1`; `none` models the non-finite value (`NaN` or
`Infinity`) that the JavaScript division produces when rows exist but
`totalEntitlement` is 0. -/
def averageUtilization (rows : List ReportRow) : Option Rat :=
  if 0 < rows.length then
    if totalEntitlement rows ≠ 0 then
      some (round1 ((totalUsed rows : Rat) / (totalEntitlement rows : Rat) * 100))
    else none
  else some 0

/-- The create-balance form input (`leaveBalanceSchema`).  Numbers are
integers, as the form parses with `parseInt`. -/
structure BalanceForm where
  employeeId : String
  year : Int
  annualEntitlement : Int
  usedDays : Int
deriving DecidableEq, Repr

/-- The zod `leaveBalanceSchema`: each field check contributes its issue;
the form is accepted exactly when no issue is produced.  Field bounds as
in the source: employeeId min length 1, year 2020-2030, entitlement 1-60,
used days 0-60 (all bounds inclusive). -/
def leaveBalanceSchemaIssues (f : BalanceForm) : List String :=
  (if f.employeeId.length < 1 then ["Employee ID is required"] else [])
    ++ (if f.year < 2020 then ["year too small"] else [])
    ++ (if 2030 < f.year then ["year too large"] else [])
    ++ (if f.annualEntitlement < 1 then ["entitlement too small"] else [])
    ++ (if 60 < f.annualEntitlement then ["entitlement too large"] else [])
    ++ (if f.usedDays < 0 then ["used days too small"] else [])
    ++ (if 60 < f.usedDays then ["used days too large"] else [])

/-- Does the create-balance form validation accept the input? -/
def leaveBalanceSchemaAccepts (f : BalanceForm) : Bool :=
  leaveBalanceSchemaIssues f == []

/-- The two unified leave-management actions. -/
inductive LeaveAction
  | deduct
  | add
deriving DecidableEq, Repr

/-- `handleSubmit` / `handleQuickAction` of the unified component:
`newUsedDays = action === 'deduct' ? currentUsedDays + days :
Math.max(0, currentUsedDays - days)`. -/
def newUsedDaysUnified (a : LeaveAction) (current days : Int) : Int :=
  match a with
  | LeaveAction.deduct => current + days
  | LeaveAction.add => max 0 (current - days)

/-- The value the unified component's update mutation submits:
`usedDays: Math.max(0, newUsedDays)`. -/
def submitUsedDaysUnified (a : LeaveAction) (current days : Int) : Int :=
  max 0 (newUsedDaysUnified a current days)

/-- The edit dialog's guard: submit `newUsedDays` only when
`newUsedDays >= 0 && newUsedDays <= editingBalance.annual_entitlement`;
otherwise nothing is sent. -/
def editDialogSubmit (ent newUsed : Int) : Option Int :=
  if 0 ≤ newUsed ∧ newUsed ≤ ent then some newUsed else none

/-- Deduction-screen statistic: the active employees,
`employees.filter(emp => emp.status === 'active')`. -/
def activeEmployeesOf (employees : List Employee) : List Employee :=
  employees.filter (fun e => e.status == EmpStatus.active)

/-- Deduction-screen statistic: `absentEmployees = totalEmployees -
attendedEmployees`, where `totalEmployees` counts active employees and
`attendedEmployees = attendanceData.length` counts every attendance
record for the date, with no filtering to active employees. -/
def absentEmployeesStat (employees : List Employee)
    (attendanceData : List AttendanceRecord) : Int :=
  (activeEmployeesOf employees).length - attendanceData.length

/-- Deduction-screen statistic: `eligibleForDeduction =
leaveBalances.filter(balance => balance.remaining_days > 0).length`. -/
def eligibleForDeductionStat (balances : List LeaveBalance) : Nat :=
  (balances.filter (fun b => decide (0 < b.remainingDays))).length

/-- Deduction-screen summary line: `Auto-Deducted:
Math.min(absentEmployees, eligibleForDeduction)`. -/
def autoDeductedStat (employees : List Employee)
    (attendanceData : List AttendanceRecord)
    (balances : List LeaveBalance) : Int :=
  min (absentEmployeesStat employees attendanceData)
    (eligibleForDeductionStat balances)

theorem balKey_bump (i : String) (y' : Nat) (b : LeaveBalance) :
    balKey i y' (bump b) = balKey i y' b := rfl

theorem balKey_eq_true_iff (i : String) (y' : Nat) (b : LeaveBalance) :
    balKey i y' b = true ↔ b.employeeId = i ∧ b.year = y' := by
  simp [balKey]

theorem balKey_bumpMap (e : String) (y : Nat) (i : String) (y' : Nat)
    (b : LeaveBalance) :
    balKey i y' (if balKey e y b then bump b else b) = balKey i y' b := by
  split
  · exact balKey_bump i y' b
  · rfl

theorem find?_bumpMap (bals : List LeaveBalance) (e : String) (y : Nat)
    (i : String) (y' : Nat) :
    (bals.map (fun b => if balKey e y b then bump b else b)).find? (balKey i y')
      = (bals.find? (balKey i y')).map
          (fun b => if balKey e y b then bump b else b) := by
  rw [List.find?_map]
  have hp : (balKey i y') ∘ (fun b => if balKey e y b then bump b else b)
      = balKey i y' := by
    funext b
    exact balKey_bumpMap e y i y' b
  rw [hp]

theorem findBalance_applyDeduction_ne (bals : List LeaveBalance) (e : String)
    (y : Nat) (i : String) (y' : Nat) (h : i ≠ e) :
    findBalance (applyDeduction bals e y) i y' = findBalance bals i y' := by
  unfold applyDeduction findBalance
  split
  · rw [find?_bumpMap]
    cases hf : bals.find? (balKey i y') with
    | none => rfl
    | some b =>
      have hb := List.find?_some hf
      have hbi : b.employeeId = i := ((balKey_eq_true_iff i y' b).1 hb).1
      have hkey : balKey e y b = false := by
        rw [Bool.eq_false_iff]
        intro hc
        exact h (hbi ▸ ((balKey_eq_true_iff e y b).1 hc).1)
      simp [hkey]
  · have hk : balKey i y' (mkBalance e y DEFAULT_ENTITLEMENT 1) = false := by
      rw [Bool.eq_false_iff]
      intro hc
      exact h (((balKey_eq_true_iff i y' _).1 hc).1).symm
    rw [List.find?_cons_of_neg _ (by simp [hk])]

theorem findBalance_applyDeduction_self (bals : List LeaveBalance) (e : String)
    (y : Nat) :
    ∃ b', findBalance (applyDeduction bals e y) e y = some b'
      ∧ b'.usedDays = usedOfBals bals e y + 1 := by
  unfold applyDeduction
  split
  case isTrue hs =>
    obtain ⟨b, hb⟩ := Option.isSome_iff_exists.1 hs
    refine ⟨bump b, ?_, ?_⟩
    · unfold findBalance
      rw [find?_bumpMap]
      have hb' : bals.find? (balKey e y) = some b := hb
      rw [hb']
      have hkey : balKey e y b = true := List.find?_some hb'
      simp [hkey]
    · have hu : usedOfBals bals e y = b.usedDays := by
        unfold usedOfBals balanceOrDefault
        rw [hb]
        rfl
      rw [hu]
      rfl
  case isFalse hs =>
    refine ⟨mkBalance e y DEFAULT_ENTITLEMENT 1, ?_, ?_⟩
    · unfold findBalance
      apply List.find?_cons_of_pos
      exact (balKey_eq_true_iff e y _).2 ⟨rfl, rfl⟩
    · have hnone : findBalance bals e y = none := by
        cases hf : findBalance bals e y with
        | none => rfl
        | some b => exact absurd (by rw [hf]; rfl) hs
      unfold usedOfBals balanceOrDefault
      rw [hnone]
      rfl

theorem findBalance_foldl_frame (l : List Employee) (bals : List LeaveBalance)
    (y : Nat) (i : String) (y' : Nat) (h : ∀ e ∈ l, e.id ≠ i) :
    findBalance (l.foldl (fun bs a => applyDeduction bs a.id y) bals) i y'
      = findBalance bals i y' := by
  induction l generalizing bals with
  | nil => rfl
  | cons e l ih =>
    rw [List.foldl_cons]
    rw [ih _ (fun a ha => h a (List.mem_cons_of_mem _ ha))]
    exact findBalance_applyDeduction_ne bals e.id y i y'
      (fun hc => h e (List.mem_cons_self e l) hc.symm)

theorem usedOfBals_foldl_bump (elig : List Employee) (bals : List LeaveBalance)
    (y : Nat) (e : Employee) (hmem : e ∈ elig)
    (hnd : (elig.map Employee.id).Nodup) :
    usedOfBals (elig.foldl (fun bs a => applyDeduction bs a.id y) bals) e.id y
      = usedOfBals bals e.id y + 1 := by
  obtain ⟨l1, l2, hsplit⟩ := List.append_of_mem hmem
  subst hsplit
  rw [List.map_append, List.map_cons] at hnd
  rcases List.nodup_append.1 hnd with ⟨_, hndc, hdisj⟩
  have he_l1 : ∀ a ∈ l1, a.id ≠ e.id := by
    intro a ha hc
    exact hdisj (hc ▸ List.mem_map_of_mem Employee.id ha) (List.mem_cons_self _ _)
  have he_l2 : ∀ a ∈ l2, a.id ≠ e.id := by
    intro a ha hc
    exact (List.nodup_cons.1 hndc).1 (hc ▸ List.mem_map_of_mem Employee.id ha)
  rw [List.foldl_append, List.foldl_cons]
  obtain ⟨b', hb', hused⟩ :=
    findBalance_applyDeduction_self
      (l1.foldl (fun bs a => applyDeduction bs a.id y) bals) e.id y
  have hl1 : findBalance (l1.foldl (fun bs a => applyDeduction bs a.id y) bals) e.id y
      = findBalance bals e.id y :=
    findBalance_foldl_frame l1 bals y e.id y he_l1
  have hfinal :
      findBalance
        (l2.foldl (fun bs a => applyDeduction bs a.id y)
          (applyDeduction (l1.foldl (fun bs a => applyDeduction bs a.id y) bals) e.id y))
        e.id y = some b' := by
    rw [findBalance_foldl_frame l2 _ y e.id y he_l2]
    exact hb'
  have husedl1 :
      usedOfBals (l1.foldl (fun bs a => applyDeduction bs a.id y) bals) e.id y
        = usedOfBals bals e.id y := by
    unfold usedOfBals balanceOrDefault
    rw [hl1]
  unfold usedOfBals balanceOrDefault
  rw [hfinal]
  simp only [Option.getD_some]
  rw [hused, husedl1]
  rfl

/-- Concrete employee used by the witness states. -/
def aliceEmp : Employee := ⟨"E1", "Alice", EmpStatus.active⟩

/-- Concrete state: one active employee, no attendance, no leave
requests, no holidays, a fresh 45-day balance for year 0. -/
def demoState : SystemState := ⟨[aliceEmp], [], [], [], [mkBalance "E1" 0 45 0]⟩

/-- C1: running the Automatic Deduction Processor for a target date
increments `used_days` by exactly 1 for exactly the employees eligible
for deduction (active, no attendance record, no approved leave covering
the date, not a holiday/weekend, remaining balance > 0) and leaves the
balance rows of every other employee unchanged (for every year). -/
theorem c1_deduction_exactly_eligible (st : SystemState) (d : Nat)
    (hnodup : (st.employees.map Employee.id).Nodup) :
    ∀ e ∈ st.employees,
      (isEligible st d e = true →
        usedOf (processDeduction st d none).state e.id (yearOf d)
          = usedOf st e.id (yearOf d) + 1)
      ∧ (isEligible st d e = false →
        ∀ y', findBalance (processDeduction st d none).state.balances e.id y'
          = findBalance st.balances e.id y') := by
  intro e he
  have hstate : (processDeduction st d none).state.balances
      = ((st.employees.filter
            (fun a => matchesFilter none a && a.status == EmpStatus.active)).filter
          (fun a => isEligible st d a)).foldl
            (fun bs a => applyDeduction bs a.id (yearOf d)) st.balances := rfl
  have hsub : ((st.employees.filter
          (fun a => matchesFilter none a && a.status == EmpStatus.active)).filter
        (fun a => isEligible st d a)).Sublist st.employees :=
    (List.filter_sublist _).trans (List.filter_sublist _)
  have hnd : (((st.employees.filter
          (fun a => matchesFilter none a && a.status == EmpStatus.active)).filter
        (fun a => isEligible st d a)).map Employee.id).Nodup :=
    hnodup.sublist (hsub.map Employee.id)
  constructor
  · intro heli
    have h' := heli
    unfold isEligible at h'
    simp only [Bool.and_eq_true] at h'
    have hact : (e.status == EmpStatus.active) = true := h'.1.1.1.1
    have hmem_t : e ∈ st.employees.filter
        (fun a => matchesFilter none a && a.status == EmpStatus.active) :=
      List.mem_filter.2 ⟨he, hact⟩
    have hmem : e ∈ (st.employees.filter
          (fun a => matchesFilter none a && a.status == EmpStatus.active)).filter
        (fun a => isEligible st d a) :=
      List.mem_filter.2 ⟨hmem_t, heli⟩
    show usedOfBals (processDeduction st d none).state.balances e.id (yearOf d)
      = usedOfBals st.balances e.id (yearOf d) + 1
    rw [hstate]
    exact usedOfBals_foldl_bump _ st.balances (yearOf d) e hmem hnd
  · intro hneli y'
    have hnotin : ∀ a ∈ (st.employees.filter
          (fun a => matchesFilter none a && a.status == EmpStatus.active)).filter
        (fun a => isEligible st d a), a.id ≠ e.id := by
      intro a ha hc
      have haemp : a ∈ st.employees := hsub.subset ha
      have hae : a = e := List.inj_on_of_nodup_map hnodup haemp he hc
      have hpa : isEligible st d a = true := (List.mem_filter.1 ha).2
      rw [hae, hneli] at hpa
      exact Bool.false_ne_true hpa
    rw [hstate]
    exact findBalance_foldl_frame _ st.balances (yearOf d) e.id y' hnotin

/-- Witness for C1: in the concrete one-employee state the processor run
for day 0 raises Alice's used days from 0 to 1. -/
theorem c1_deduction_exactly_eligible_witness :
    usedOf (processDeduction demoState 0 none).state "E1" 0
      = usedOf demoState "E1" 0 + 1 :=
  (c1_deduction_exactly_eligible demoState 0 (by decide) aliceEmp (by decide)).1
    (by decide)

theorem mkBalance_inv (i : String) (y ent used : Nat) :
    BalanceInv (mkBalance i y ent used) := by
  refine ⟨Int.ofNat_nonneg _, ?_, ?_⟩
  · show (((ent - used : Nat)) : Int) = max 0 ((ent : Int) - (used : Int))
    omega
  · rfl

theorem inv_applyDeduction (bals : List LeaveBalance)
    (h : ∀ b ∈ bals, BalanceInv b) (e : String) (y : Nat) :
    ∀ b ∈ applyDeduction bals e y, BalanceInv b := by
  unfold applyDeduction
  split
  · intro b hb
    obtain ⟨a, ha, rfl⟩ := List.mem_map.1 hb
    split
    · exact mkBalance_inv _ _ _ _
    · exact h a ha
  · intro b hb
    rcases List.mem_cons.1 hb with rfl | hmem
    · exact mkBalance_inv _ _ _ _
    · exact h b hmem

theorem inv_foldl_deduction (l : List Employee) (bals : List LeaveBalance)
    (y : Nat) (h : ∀ b ∈ bals, BalanceInv b) :
    ∀ b ∈ l.foldl (fun bs a => applyDeduction bs a.id y) bals, BalanceInv b := by
  induction l generalizing bals with
  | nil => exact h
  | cons e l ih => exact ih _ (inv_applyDeduction bals h e.id y)

/-- C2: after each operation — create, update, deduction — every stored
balance row satisfies `used_days ≥ 0`,
`remaining_days = max(0, annual_entitlement − used_days)` and
`utilization_percentage = round(used_days / annual_entitlement × 100, 1)`
when the entitlement is positive, else `0`. -/
theorem c2_balance_invariants (st : SystemState)
    (h : ∀ b ∈ st.balances, BalanceInv b) :
    (∀ i y ent used, ∀ b ∈ (createBalance st i y ent used).balances, BalanceInv b)
    ∧ (∀ i y used, ∀ b ∈ (updateUsedDays st i y used).balances, BalanceInv b)
    ∧ (∀ d filter, ∀ b ∈ (processDeduction st d filter).state.balances, BalanceInv b) := by
  refine ⟨?_, ?_, ?_⟩
  · intro i y ent used b hb
    have hb' : b ∈ (if (findBalance st.balances i y).isSome then
          st.balances.map
            (fun bb => if balKey i y bb then mkBalance i y ent used else bb)
        else mkBalance i y ent used :: st.balances) := hb
    split at hb'
    · obtain ⟨a, ha, rfl⟩ := List.mem_map.1 hb'
      split
      · exact mkBalance_inv _ _ _ _
      · exact h a ha
    · rcases List.mem_cons.1 hb' with rfl | hmem
      · exact mkBalance_inv _ _ _ _
      · exact h b hmem
  · intro i y used b hb
    have hb' : b ∈ st.balances.map
        (fun bb =>
          if balKey i y bb then
            mkBalance bb.employeeId bb.year bb.annualEntitlement used
          else bb) := hb
    obtain ⟨a, ha, rfl⟩ := List.mem_map.1 hb'
    split
    · exact mkBalance_inv _ _ _ _
    · exact h a ha
  · intro d filter b hb
    have hb' : b ∈ ((st.employees.filter
          (fun a => matchesFilter filter a && a.status == EmpStatus.active)).filter
        (fun a => isEligible st d a)).foldl
          (fun bs a => applyDeduction bs a.id (yearOf d)) st.balances := hb
    exact inv_foldl_deduction _ _ _ h b hb'

/-- Witness for C2: the row created by a concrete create operation on the
empty state satisfies the invariant. -/
theorem c2_balance_invariants_witness :
    BalanceInv (mkBalance "E1" 2025 45 0) :=
  (c2_balance_invariants ⟨[], [], [], [], []⟩ (by simp)).1 "E1" 2025 45 0
    (mkBalance "E1" 2025 45 0) (List.mem_cons_self _ _)

/-- C3: the processor is not idempotent.  In the concrete state with one
eligible employee whose remaining balance is at least 2, running the
processor twice for the same date increments `used_days` by 2, not 1. -/
theorem c3_not_idempotent :
    isEligible demoState 0 aliceEmp = true
    ∧ 2 ≤ remainingOf demoState "E1" 0
    ∧ usedOf (processDeduction
          (processDeduction demoState 0 none).state 0 none).state "E1" 0
        = usedOf demoState "E1" 0 + 2 := by
  decide

/-- C6: for every input state, date and filter, the deduction processor
modifies only balance rows — the attendance and leave-request tables of
the resulting state are identical to the input ones. -/
theorem c6_deduction_frame (st : SystemState) (d : Nat) (filter : Option String) :
    (processDeduction st d filter).state.attendance = st.attendance
    ∧ (processDeduction st d filter).state.leaveRequests = st.leaveRequests :=
  ⟨rfl, rfl⟩

theorem computeUtilization_45_0 : computeUtilization 45 0 = 0 := by
  unfold computeUtilization round1
  norm_num

theorem computeUtilization_45_10 : computeUtilization 45 10 = 111 / 5 := by
  unfold computeUtilization round1
  rw [if_pos (by norm_num)]
  rw [show ((10 : Nat) : Rat) / ((45 : Nat) : Rat) * 100 * 10 = 2000 / 9 by
    push_cast
    norm_num]
  rw [show round ((2000 : Rat) / 9) = 222 by
    rw [round_eq, Int.floor_eq_iff]
    norm_num]
  norm_num

theorem computeUtilization_45_25 : computeUtilization 45 25 = 278 / 5 := by
  unfold computeUtilization round1
  rw [if_pos (by norm_num)]
  rw [show ((25 : Nat) : Rat) / ((45 : Nat) : Rat) * 100 * 10 = 5000 / 9 by
    push_cast
    norm_num]
  rw [show round ((5000 : Rat) / 9) = 556 by
    rw [round_eq, Int.floor_eq_iff]
    norm_num]
  norm_num

theorem computeUtilization_45_40 : computeUtilization 45 40 = 889 / 10 := by
  unfold computeUtilization round1
  rw [if_pos (by norm_num)]
  rw [show ((40 : Nat) : Rat) / ((45 : Nat) : Rat) * 100 * 10 = 8000 / 9 by
    push_cast
    norm_num]
  rw [show round ((8000 : Rat) / 9) = 889 by
    rw [round_eq, Int.floor_eq_iff]
    norm_num]
  norm_num

theorem getUsageCategory_band_none (u : Rat) (h : u = 0) :
    getUsageCategory u = "No Leave Taken" := by
  unfold getUsageCategory
  rw [if_pos h]

theorem getUsageCategory_band_low (u : Rat) (h1 : 0 < u) (h2 : u ≤ 25) :
    getUsageCategory u = "Low Usage" := by
  unfold getUsageCategory
  rw [if_neg (ne_of_gt h1), if_pos h2]

theorem getUsageCategory_band_moderate (u : Rat) (h1 : 25 < u) (h2 : u ≤ 75) :
    getUsageCategory u = "Moderate Usage" := by
  have h0 : ¬ u = 0 := by
    intro hc
    rw [hc] at h1
    exact absurd h1 (by norm_num)
  unfold getUsageCategory
  rw [if_neg h0, if_neg (not_le.2 h1), if_pos h2]

theorem getUsageCategory_band_high (u : Rat) (h : 75 < u) :
    getUsageCategory u = "High Usage" := by
  have h0 : ¬ u = 0 := by
    intro hc
    rw [hc] at h
    exact absurd h (by norm_num)
  unfold getUsageCategory
  rw [if_neg h0, if_neg (not_le.2 (lt_trans (by norm_num) h)),
    if_neg (not_le.2 h)]

/-- C5: the usage category is a function of the utilization percentage
with exactly four bands (0 → "No Leave Taken", (0,25] → "Low Usage",
(25,75] → "Moderate Usage", >75 → "High Usage"), and the four concrete
points 0/45, 10/45, 25/45, 40/45 fall in the stated bands. -/
theorem c5_usage_category :
    (∀ u : Rat,
      (u = 0 → getUsageCategory u = "No Leave Taken")
      ∧ (0 < u → u ≤ 25 → getUsageCategory u = "Low Usage")
      ∧ (25 < u → u ≤ 75 → getUsageCategory u = "Moderate Usage")
      ∧ (75 < u → getUsageCategory u = "High Usage"))
    ∧ getUsageCategory (computeUtilization 45 0) = "No Leave Taken"
    ∧ getUsageCategory (computeUtilization 45 10) = "Low Usage"
    ∧ getUsageCategory (computeUtilization 45 25) = "Moderate Usage"
    ∧ getUsageCategory (computeUtilization 45 40) = "High Usage" := by
  refine ⟨?_, ?_, ?_, ?_, ?_⟩
  · intro u
    exact ⟨getUsageCategory_band_none u, getUsageCategory_band_low u,
      getUsageCategory_band_moderate u, getUsageCategory_band_high u⟩
  · rw [computeUtilization_45_0]
    exact getUsageCategory_band_none 0 rfl
  · rw [computeUtilization_45_10]
    exact getUsageCategory_band_low _ (by norm_num) (by norm_num)
  · rw [computeUtilization_45_25]
    exact getUsageCategory_band_moderate _ (by norm_num) (by norm_num)
  · rw [computeUtilization_45_40]
    exact getUsageCategory_band_high _ (by norm_num)

/-- Witness for C5: utilization 10 % is labelled "Low Usage". -/
theorem c5_usage_category_witness : getUsageCategory 10 = "Low Usage" :=
  ((c5_usage_category.1 10).2.1) (by norm_num) (by norm_num)

/-- C4 counterexample: a one-row report whose only entitlement is 0 has
no entitlement at all, yet the displayed average is not 0 — the division
`totalUsed / totalEntitlement` is a division by zero, so the JavaScript
code shows `NaN` (modelled `none`), contradicting the claim's "equals 0
when no entitlement exists". -/
theorem c4_average_utilization_counterexample :
    totalEntitlement [⟨"E1", 0, 0, 0⟩] = 0
    ∧ averageUtilization [⟨"E1", 0, 0, 0⟩] ≠ some 0 := by
  decide

/-- C4 amended: when the report is non-empty and the total entitlement is
positive, the average utilization equals
`round1(totalUsed / totalEntitlement × 100)`; an empty report displays 0;
and the two-employee scenario (45/10, 45/20) reports totals 90 and 30 and
average 33.3 %. -/
theorem c4_average_utilization :
    (∀ rows : List ReportRow, rows ≠ [] → 0 < totalEntitlement rows →
      averageUtilization rows
        = some (round1 ((totalUsed rows : Rat) / (totalEntitlement rows : Rat) * 100)))
    ∧ averageUtilization ([] : List ReportRow) = some 0
    ∧ totalEntitlement [⟨"A", 45, 10, 35⟩, ⟨"B", 45, 20, 25⟩] = 90
    ∧ totalUsed [⟨"A", 45, 10, 35⟩, ⟨"B", 45, 20, 25⟩] = 30
    ∧ averageUtilization [⟨"A", 45, 10, 35⟩, ⟨"B", 45, 20, 25⟩]
        = some (333 / 10) := by
  refine ⟨?_, by decide, by decide, by decide, ?_⟩
  · intro rows hne hent
    unfold averageUtilization
    rw [if_pos (List.length_pos.2 hne), if_pos (Nat.pos_iff_ne_zero.1 hent)]
  · unfold averageUtilization round1
    rw [if_pos (by decide), if_pos (by decide)]
    rw [show totalUsed [⟨"A", 45, 10, 35⟩, ⟨"B", 45, 20, 25⟩] = 30 from rfl,
      show totalEntitlement [⟨"A", 45, 10, 35⟩, ⟨"B", 45, 20, 25⟩] = 90 from rfl]
    rw [show ((30 : Nat) : Rat) / ((90 : Nat) : Rat) * 100 * 10 = 1000 / 3 by
      push_cast
      norm_num]
    rw [show round ((1000 : Rat) / 3) = 333 by
      rw [round_eq, Int.floor_eq_iff]
      norm_num]
    norm_num

/-- Witness for C4: the amended formula evaluated on the two-employee
scenario report. -/
theorem c4_average_utilization_witness :
    averageUtilization [⟨"A", 45, 10, 35⟩, ⟨"B", 45, 20, 25⟩]
      = some (round1 ((totalUsed [⟨"A", 45, 10, 35⟩, ⟨"B", 45, 20, 25⟩] : Rat)
          / (totalEntitlement [⟨"A", 45, 10, 35⟩, ⟨"B", 45, 20, 25⟩] : Rat) * 100)) :=
  c4_average_utilization.1 _ (by decide) (by decide)

theorem string_eq_empty_of_length_eq_zero (s : String) (h : s.length = 0) :
    s = "" := by
  cases s with
  | mk data =>
    cases data with
    | nil => rfl
    | cons c cs => simp [String.length] at h

theorem ite_singleton_eq_nil_iff (c : Prop) [Decidable c] (m : String) :
    ((if c then [m] else []) = ([] : List String)) ↔ ¬c := by
  split
  case isTrue h => simp [h]
  case isFalse h => simp [h]

/-- C7: the create-balance form validation accepts an input exactly when
the employee id is non-empty, the year lies in [2020, 2030], the annual
entitlement lies in [1, 60] and the used days lie in [0, 60]; anything
outside these bounds is a validation error. -/
theorem c7_form_validation (f : BalanceForm) :
    leaveBalanceSchemaAccepts f = true ↔
      (f.employeeId ≠ "" ∧ 2020 ≤ f.year ∧ f.year ≤ 2030
        ∧ 1 ≤ f.annualEntitlement ∧ f.annualEntitlement ≤ 60
        ∧ 0 ≤ f.usedDays ∧ f.usedDays ≤ 60) := by
  unfold leaveBalanceSchemaAccepts leaveBalanceSchemaIssues
  rw [beq_iff_eq]
  simp only [List.append_eq_nil, ite_singleton_eq_nil_iff, not_lt, and_assoc]
  constructor
  · rintro ⟨h1, h2, h3, h4, h5, h6, h7⟩
    exact ⟨fun hc => absurd (hc ▸ h1) (by decide), h2, h3, h4, h5, h6, h7⟩
  · rintro ⟨h1, h2, h3, h4, h5, h6, h7⟩
    refine ⟨?_, h2, h3, h4, h5, h6, h7⟩
    by_contra hc
    push_neg at hc
    exact h1 (string_eq_empty_of_length_eq_zero _ (by omega))

/-- C8: the unified actions submit `max(0, current − days)` for an add
and `current + days` for a deduct; the submitted value is never negative
on either path; the deduct path is unbounded above (current 45, deduct 1
submits 46 > 45); while the edit dialog only ever submits values in
[0, annual_entitlement]. -/
theorem c8_unified_submission :
    (∀ current days : Int, 0 ≤ current → 0 ≤ days →
      submitUsedDaysUnified LeaveAction.deduct current days = current + days
      ∧ submitUsedDaysUnified LeaveAction.add current days
          = max 0 (current - days))
    ∧ (∀ a current days, 0 ≤ submitUsedDaysUnified a current days)
    ∧ (submitUsedDaysUnified LeaveAction.deduct 45 1 = 46 ∧ (45 : Int) < 46)
    ∧ (∀ ent v s : Int, editDialogSubmit ent v = some s → 0 ≤ s ∧ s ≤ ent) := by
  refine ⟨?_, ?_, ⟨by decide, by decide⟩, ?_⟩
  · intro c d hc hd
    constructor
    · show max 0 (c + d) = c + d
      exact max_eq_right (by omega)
    · show max 0 (max 0 (c - d)) = max 0 (c - d)
      rw [← max_assoc, max_self]
  · intro a c d
    exact le_max_left 0 _
  · intro ent v s h
    unfold editDialogSubmit at h
    split at h
    case isTrue hcond =>
      cases h
      exact hcond
    case isFalse hcond =>
      cases h

/-- Witness for C8: concrete evaluations of the unified submission and
the edit-dialog guard. -/
theorem c8_unified_submission_witness :
    submitUsedDaysUnified LeaveAction.deduct 3 2 = 3 + 2
    ∧ submitUsedDaysUnified LeaveAction.add 3 2 = max 0 (3 - 2)
    ∧ ((0 : Int) ≤ 10 ∧ (10 : Int) ≤ 45) :=
  ⟨(c8_unified_submission.1 3 2 (by decide) (by decide)).1,
    (c8_unified_submission.1 3 2 (by decide) (by decide)).2,
    c8_unified_submission.2.2.2 45 10 10 (by decide)⟩

/-- C9: the "Absent Today" statistic is the number of active employees
minus the number of all attendance records for the date (not filtered to
active employees), and it can be negative: one active employee with two
attendance records from other ids displays −1. -/
theorem c9_absent_today :
    (∀ emps att, absentEmployeesStat emps att
      = ((emps.filter (fun e => e.status == EmpStatus.active)).length : Int)
          - (att.length : Int))
    ∧ absentEmployeesStat [aliceEmp] [⟨"X", 0⟩, ⟨"Y", 0⟩] = -1 :=
  ⟨fun emps att => rfl, by decide⟩

/-- C10: the "Eligible for Deduction" / "With Leave Balance" count is
exactly the number of balance rows with positive remaining days,
unaffected by the other parts of the state (employees, attendance, leave
requests, holidays); it can exceed the processor's deduction count (on a
weekend the processor deducts 0 but the count shows 1); and the displayed
"Auto-Deducted" figure is min(absentEmployees, eligibleForDeduction). -/
theorem c10_eligible_stat :
    (∀ st : SystemState, ∀ emps att lr hols,
      eligibleForDeductionStat
        (SystemState.mk emps att lr hols st.balances).balances
        = eligibleForDeductionStat st.balances)
    ∧ eligibleForDeductionStat demoState.balances = 1
    ∧ (processDeduction demoState 5 none).deductedCount = 0
    ∧ (∀ emps att bals, autoDeductedStat emps att bals
        = min (absentEmployeesStat emps att)
            ((eligibleForDeductionStat bals : Int))) :=
  ⟨fun st emps att lr hols => rfl, by decide, by decide,
    fun emps att bals => rfl⟩
